import Mathlib

/-!
Shallow embedding of the image transform-and-relocate pipeline of
okebinda/storage.microservices.go.

Each Lambda handler is embedded as a pure Lean function from its parsed
configuration, its request parameters, and a per-run "world" record (the
results that the external collaborators - blob store, type sniffer, image
codec, queue - would return during that run) to the ordered list of
externally visible steps the handler performs (downloads, sniffs, resizes,
uploads, deletes, responses).  Environment-variable parsing and JSON body
decoding are modelled as already done (the spec scopes env loading and HTTP
framing out of the core); a run whose config fails to parse exits early with
a server error before any of the behavior investigated here.

Floating point only occurs inside the branch of `resizeImageIfTooLarge` that
actually resizes; its scaled dimensions are modelled with exact arithmetic
and truncation toward zero.  No theorem below depends on the values computed
in that branch.  String routines that Lean implements by well-founded or
iterator recursion (split, prefix test, fold) are embedded as structurally
recursive functions over the character list so that every definition
evaluates inside the kernel.
-/

namespace StorageMicroservices

/-- Externally visible actions of one pipeline run, in program order.
`respondUser`/`respondServer`/`respondSuccess`-family steps are the HTTP
responses written; `logReject` is the queue handler's log-and-skip of one
batch item (it writes no HTTP response). -/
inductive Step : Type where
  | genKey (key : String)
  | presign (key contentType : String)
  | download
  | sniff
  | decode
  | resize (w h : Int)
  | upload (bucket key : String)
  | deleteObj (bucket key : String)
  | respondUser (code : Int) (msg : String)
  | respondServer
  | respondSuccess (code : Int)
  | respondSuccessUpload (uploadURL fileKey : String)
  | respondSuccessPayload (code : Int) (bucket directory fileExtension fileId : String)
      (height sizeBytes width : Int)
  | respondRedirect (url : String)
  | sendCallback (queue : String)
  | logReject (msg : String)
deriving DecidableEq, Repr

/-- Result of a blob-store download: the SDK error's message string (the
handlers inspect its `NoSuchKey` prefix) or the downloaded byte count. -/
inductive DownloadResult : Type where
  | err (e : String)
  | ok (numBytes : Int)
deriving DecidableEq, Repr

/-- `validImageFormats` from the source: the mime allow-list. -/
def validImageFormats : List String := ["image/png", "image/jpeg"]

/-- `contains` from the source: linear scan for a string in a slice. -/
def contains : List String → String → Bool
  | [], _ => false
  | n :: rest, x => if x = n then true else contains rest x

/-- `min` from the source: lesser of two ints. -/
def goMin (a b : Int) : Int := if a < b then a else b

/-- The destination key rule shared by both finalize-upload handlers and the
queue handler: `<directory>/<fileId>.<extension>` when a directory is given,
else `<fileId>.<extension>`. -/
def fileKeyFor (directory fileId ext : String) : String :=
  if directory ≠ "" then directory ++ "/" ++ fileId ++ "." ++ ext
  else fileId ++ "." ++ ext

/-- `generateFileKey` from upload-url.go: same rule, with a freshly generated
uuid as the file id (the uuid is a parameter of the embedding). -/
def generateFileKey (extension directory uuid : String) : String :=
  if directory = "" then uuid ++ "." ++ extension
  else directory ++ "/" ++ uuid ++ "." ++ extension

/-- `extensionMap` from upload-url.go: maps declared extensions to the mime
subtype used for signing. -/
def extensionMap (e : String) : Option String :=
  if e = "png" then some "png"
  else if e = "jpg" then some "jpeg"
  else if e = "jpeg" then some "jpeg"
  else none

/-- The scaled dimensions computed inside the resize branch of
`resizeImageIfTooLarge`: `ratio = min(maxW/w, maxH/h)` and the source
dimensions scaled by it, truncated toward zero.  Computed in exact integer
arithmetic: for the positive dimensions the handlers feed it,
`maxW/w ≤ maxH/h` iff `maxW*h ≤ maxH*w`, and `trunc (x * (maxW/w))` is
`x*maxW / w` with truncating division. -/
def resizeDims (w h maxW maxH : Int) : Int × Int :=
  if maxW * h ≤ maxH * w then (w * maxW / w, h * maxW / w)
  else (w * maxH / h, h * maxH / h)

/-- `resizeImageIfTooLarge` from both finalize-upload sources: if either
dimension exceeds its bound, scale uniformly and re-encode (overwriting the
local file); otherwise leave the file bytes untouched and return the source
dimensions.  `bytes` stands for the local file's content and `reencoded w h`
for the bytes the codec writes when it saves a `w` by `h` resize. -/
def resizeImageIfTooLarge {α : Type} (w h maxW maxH : Int) (bytes : α)
    (reencoded : Int → Int → α) : Int × Int × α :=
  if w > maxW ∨ h > maxH then
    let d := resizeDims w h maxW maxH
    (d.1, d.2, reencoded d.1 d.2)
  else (w, h, bytes)

/-- Splitting a character list at every occurrence of a separator, the
core of Go's `strings.Split` for a one-character separator. -/
def splitOnChar (sep : Char) : List Char → List (List Char)
  | [] => [[]]
  | c :: cs =>
    match splitOnChar sep cs with
    | [] => [[c]]
    | h :: t => if c = sep then [] :: h :: t else (c :: h) :: t

/-- `strings.Split` on a one-character separator. -/
def goSplit (s : String) (sep : Char) : List String :=
  (splitOnChar sep s.data).map String.mk

/-- `strings.HasPrefix`: whether `pre` is a prefix of `s`. -/
def strStarts (s pre : String) : Bool := pre.data.isPrefixOf s.data

/-- One non-empty run of ASCII digits: the `\d+` atom of the size regex. -/
def isDigitStr (s : String) : Bool :=
  !s.data.isEmpty && s.data.all Char.isDigit

/-- `regexp.MatchString` of the anchored pattern matching `<digits>x<digits>`:
a string matches iff it splits on the literal `x` into exactly two non-empty
digit runs. -/
def matchSizeRe (s : String) : Bool :=
  match goSplit s 'x' with
  | [a, b] => isDigitStr a && isDigitStr b
  | _ => false

/-- `strconv.Atoi` restricted to the inputs the serve handlers feed it (the
digit-only components of a matched size token): the numeric value when it
fits a signed 64-bit int, an error otherwise. -/
def atoi (s : String) : Option Int :=
  if isDigitStr s then
    let v := s.data.foldl (fun acc c => acc * 10 + (c.toNat - 48)) 0
    if v < 9223372036854775808 then some (Int.ofNat v) else none
  else none

/-- The serve handlers' size-token parse, as one function: regex gate, split
on `x`, `Atoi` both components. -/
def parseSize (s : String) : Option (Int × Int) :=
  if matchSizeRe s then
    let sizes := goSplit s 'x' 
    match atoi (sizes.getD 0 ""), atoi (sizes.getD 1 "") with
    | some a, some b => some (a, b)
    | _, _ => none
  else none

/-- Parsed environment of the image-upload service (env loading itself is
outside the core; a run with unparseable config exits with a server error
before reaching any behavior modelled here). -/
structure UploadEnv : Type where
  uploadBucket : String
  publicBucket : String
  maxBytes : Int
  maxWidth : Int
  maxHeight : Int
deriving DecidableEq, Repr

/-- `RequestPayload` from the finalize-upload sources (already JSON-decoded). -/
structure RequestPayload : Type where
  directory : String
  fileExtension : String
  fileId : String
  height : Int
  width : Int
deriving DecidableEq, Repr

/-- Collaborator results for one finalize-upload run: temp-file creation,
the blob-store download (error string or byte count), the type sniff (`none`
is a file-read error, `some t` the detected mime), the codec decode (`none`
is a decode error, `some (w, h)` the pixel dimensions), the re-encode save,
the blob-store upload, and the final `Stat` (`some n` is the final size). -/
structure UploadWorld : Type where
  createOk : Bool
  download : DownloadResult
  sniff : Option String
  decode : Option (Int × Int)
  saveOk : Bool
  uploadOk : Bool
  statResult : Option Int
deriving DecidableEq, Repr

/-- The missing-parameters message of the finalize-upload handlers. -/
def missingParamsMsg (fileId fileExtension : String) : String :=
  "Missing parameters, cannot complete request; file_id: " ++ fileId ++
    ", file_extension: " ++ fileExtension

/-- The oversized-download message, naming the byte count and the key. -/
def tooLargeMsg (numBytes : Int) (fileKey : String) : String :=
  "File is too large: " ++ toString numBytes ++ ", " ++ fileKey

/-- The unsupported-type message of the finalize-upload handlers. -/
def unsupportedTypeMsg (fileType fileKey : String) : String :=
  "Unsupported file type: " ++ fileType ++ ", " ++ fileKey

/-- `PostProcessUpload` from image-upload/src/main.go (the chi-routed
variant): move an uploaded image to the public bucket, validating size then
type, resizing when it exceeds the clamped bounds, and answering 201 with
the completion payload. -/
def PostProcessUpload (env : UploadEnv) (req : RequestPayload)
    (wd : UploadWorld) : List Step :=
  if req.fileId = "" ∨ req.fileExtension = "" then
    [Step.respondUser 400 (missingParamsMsg req.fileId req.fileExtension)]
  else
    let fileKey := fileKeyFor req.directory req.fileId req.fileExtension
    if ¬ wd.createOk then [Step.respondServer]
    else
      Step.download ::
      match wd.download with
      | .err e =>
        if strStarts e "NoSuchKey" then [Step.respondUser 404 "Not found."]
        else [Step.respondServer]
      | .ok numBytes =>
        if numBytes > env.maxBytes then
          [Step.respondUser 400 (tooLargeMsg numBytes fileKey)]
        else
          Step.sniff ::
          match wd.sniff with
          | none => [Step.respondServer]
          | some fileType =>
            if ¬ contains validImageFormats fileType then
              [Step.respondUser 400 (unsupportedTypeMsg fileType fileKey)]
            else
              Step.decode ::
              match wd.decode with
              | none => [Step.respondServer]
              | some (srcW, srcH) =>
                let newMaxWidth :=
                  if req.width > 0 then goMin env.maxWidth req.width
                  else env.maxWidth
                let newMaxHeight :=
                  if req.height > 0 then goMin env.maxHeight req.height
                  else env.maxHeight
                let cont := fun (finalW finalH : Int) =>
                  Step.upload env.publicBucket fileKey ::
                  if ¬ wd.uploadOk then [Step.respondServer]
                  else
                    match wd.statResult with
                    | none => [Step.respondServer]
                    | some finalNumBytes =>
                      [Step.respondSuccessPayload 201 env.publicBucket
                        req.directory req.fileExtension req.fileId
                        finalW finalNumBytes finalH]
                if srcW > newMaxWidth ∨ srcH > newMaxHeight then
                  let d := resizeDims srcW srcH newMaxWidth newMaxHeight
                  Step.resize d.1 d.2 ::
                  (if ¬ wd.saveOk then [Step.respondServer] else cont d.1 d.2)
                else cont srcW srcH

/-- `Handler` from the standalone process-upload lambda (the API-Gateway
variant): identical pipeline to `PostProcessUpload`, answering 200. -/
def processUploadHandler (env : UploadEnv) (req : RequestPayload)
    (wd : UploadWorld) : List Step :=
  if req.fileId = "" ∨ req.fileExtension = "" then
    [Step.respondUser 400 (missingParamsMsg req.fileId req.fileExtension)]
  else
    let fileKey := fileKeyFor req.directory req.fileId req.fileExtension
    if ¬ wd.createOk then [Step.respondServer]
    else
      Step.download ::
      match wd.download with
      | .err e =>
        if strStarts e "NoSuchKey" then [Step.respondUser 404 "Not found."]
        else [Step.respondServer]
      | .ok numBytes =>
        if numBytes > env.maxBytes then
          [Step.respondUser 400 (tooLargeMsg numBytes fileKey)]
        else
          Step.sniff ::
          match wd.sniff with
          | none => [Step.respondServer]
          | some fileType =>
            if ¬ contains validImageFormats fileType then
              [Step.respondUser 400 (unsupportedTypeMsg fileType fileKey)]
            else
              Step.decode ::
              match wd.decode with
              | none => [Step.respondServer]
              | some (srcW, srcH) =>
                let newMaxWidth :=
                  if req.width > 0 then goMin env.maxWidth req.width
                  else env.maxWidth
                let newMaxHeight :=
                  if req.height > 0 then goMin env.maxHeight req.height
                  else env.maxHeight
                let cont := fun (finalW finalH : Int) =>
                  Step.upload env.publicBucket fileKey ::
                  if ¬ wd.uploadOk then [Step.respondServer]
                  else
                    match wd.statResult with
                    | none => [Step.respondServer]
                    | some finalNumBytes =>
                      [Step.respondSuccessPayload 200 env.publicBucket
                        req.directory req.fileExtension req.fileId
                        finalW finalNumBytes finalH]
                if srcW > newMaxWidth ∨ srcH > newMaxHeight then
                  let d := resizeDims srcW srcH newMaxWidth newMaxHeight
                  Step.resize d.1 d.2 ::
                  (if ¬ wd.saveOk then [Step.respondServer] else cont d.1 d.2)
                else cont srcW srcH

/-- Parsed environment of the queue-driven upload-image lambda. -/
structure QueueEnv : Type where
  uploadBucket : String
  publicBucket : String
  callbackQueue : String
  maxBytes : Int
  maxWidth : Int
  maxHeight : Int
deriving DecidableEq, Repr

/-- `ImageMessage` from upload-image/main.go (already JSON-decoded). -/
structure ImageMessage : Type where
  fileId : String
  fileExtension : String
  directory : String
  callbackURL : String
  width : Int
  height : Int
deriving DecidableEq, Repr

/-- Collaborator results for one queue item's processing. -/
structure QueueWorld : Type where
  createOk : Bool
  download : DownloadResult
  sniff : Option String
  decode : Option (Int × Int)
  saveOk : Bool
  uploadOk : Bool
  sendOk : Bool
deriving DecidableEq, Repr

/-- Processing of one SQS record by `Handler` in upload-image/main.go.
`msg` is `none` when the record body fails to unmarshal.  Failures log and
skip the item (`Step.logReject`); no HTTP response exists on this path.
Note the validation order of this handler: the type sniff and its check come
before the byte-size check. -/
def uploadImageItem (env : QueueEnv) (msg? : Option ImageMessage)
    (wd : QueueWorld) : List Step :=
  match msg? with
  | none => [Step.logReject "Error unmarshalling message body"]
  | some msg =>
    if msg.fileId = "" ∨ msg.fileExtension = "" then
      [Step.logReject (missingParamsMsg msg.fileId msg.fileExtension)]
    else
      let fileKey := fileKeyFor msg.directory msg.fileId msg.fileExtension
      if ¬ wd.createOk then [Step.logReject "os.Create() error"]
      else
        Step.download ::
        match wd.download with
        | .err _ => [Step.logReject "S3 downloader error"]
        | .ok numBytes =>
          Step.sniff ::
          match wd.sniff with
          | none => [Step.logReject "File read error"]
          | some fileType =>
            if ¬ contains validImageFormats fileType then
              [Step.logReject (unsupportedTypeMsg fileType fileKey)]
            else if numBytes > env.maxBytes then
              [Step.logReject (tooLargeMsg numBytes fileKey)]
            else
              Step.decode ::
              match wd.decode with
              | none => [Step.logReject "Failed to open image"]
              | some (srcW, srcH) =>
                let newMaxWidth :=
                  if msg.width > 0 then goMin env.maxWidth msg.width
                  else env.maxWidth
                let newMaxHeight :=
                  if msg.height > 0 then goMin env.maxHeight msg.height
                  else env.maxHeight
                let cont :=
                  Step.upload env.publicBucket fileKey ::
                  if ¬ wd.uploadOk then [Step.logReject "Failed to upload file"]
                  else
                    Step.sendCallback env.callbackQueue ::
                    if ¬ wd.sendOk then
                      [Step.logReject "Failed send callback message to queue"]
                    else []
                if srcW > newMaxWidth ∨ srcH > newMaxHeight then
                  let d := resizeDims srcW srcH newMaxWidth newMaxHeight
                  Step.resize d.1 d.2 ::
                  (if ¬ wd.saveOk then [Step.logReject "Failed to resize image"]
                   else cont)
                else cont

/-- Parsed environment of the image-serve service.  It configures maximum
width and height but no maximum byte size. -/
structure ServeEnv : Type where
  sourceBucket : String
  destinationBucket : String
  region : String
  maxWidth : Int
  maxHeight : Int
deriving DecidableEq, Repr

/-- Collaborator results for one serve-path run. -/
structure ServeWorld : Type where
  createOk : Bool
  download : DownloadResult
  sniff : Option String
  decodeOk : Bool
  saveOk : Bool
  uploadOk : Bool
deriving DecidableEq, Repr

/-- The serve handlers' missing-parameters message. -/
def missingServeMsg (size imageKey : String) : String :=
  "Missing parameters, cannot complete request; size: " ++ size ++
    ", image_key: " ++ imageKey

/-- The serve handlers' malformed-size-token message. -/
def badFormatMsg (size : String) : String :=
  "Bad parameter format, cannot complete request; size: " ++ size

/-- `GetResizeCrop` from image-serve/src/resize-crop.go (the chi-routed
variant): validate the size token, download the source object, sniff its
type, clamp the requested dimensions against the configured maxima, crop
to exactly those dimensions, upload under `crop/<size>/<key>`, and redirect
to the public location.  A download failure whose error starts with
`NoSuchKey` answers 404. -/
def GetResizeCrop (env : ServeEnv) (size imageKey : String)
    (wd : ServeWorld) : List Step :=
  if size = "" ∨ imageKey = "" then
    [Step.respondUser 400 (missingServeMsg size imageKey)]
  else if ¬ matchSizeRe size then
    [Step.respondUser 400 (badFormatMsg size)]
  else
    let sizes := goSplit size 'x' 
    match atoi (sizes.getD 0 ""), atoi (sizes.getD 1 "") with
    | none, _ => [Step.respondUser 400 "Could not convert width to int."]
    | some _, none => [Step.respondUser 400 "Could not convert height to int."]
    | some reqWidth, some reqHeight =>
      let resizedFileKey := "crop/" ++ size ++ "/" ++ imageKey
      if ¬ wd.createOk then [Step.respondServer]
      else
        Step.download ::
        match wd.download with
        | .err e =>
          if strStarts e "NoSuchKey" then [Step.respondUser 404 "Not found."]
          else [Step.respondServer]
        | .ok _ =>
          Step.sniff ::
          match wd.sniff with
          | none => [Step.respondServer]
          | some fileType =>
            if ¬ contains validImageFormats fileType then
              [Step.respondUser 400 ("Unsupported file type: " ++ fileType)]
            else
              Step.decode ::
              if ¬ wd.decodeOk then [Step.respondServer]
              else
                let width := goMin env.maxWidth reqWidth
                let height := goMin env.maxHeight reqHeight
                Step.resize width height ::
                if ¬ wd.saveOk then [Step.respondServer]
                else
                  Step.upload env.destinationBucket resizedFileKey ::
                  if ¬ wd.uploadOk then [Step.respondServer]
                  else
                    [Step.respondRedirect ("http://" ++ env.destinationBucket ++
                      ".s3-website." ++ env.region ++ ".amazonaws.com/" ++
                      resizedFileKey)]

/-- `Handler` from image-serve/image-resize-crop/main.go (the standalone
API-Gateway variant of the crop pipeline).  Unlike `GetResizeCrop`, every
download failure - including one whose error indicates the source object
does not exist - answers a generic server error. -/
def resizeCropHandler (env : ServeEnv) (size imageKey : String)
    (wd : ServeWorld) : List Step :=
  if size = "" ∨ imageKey = "" then
    [Step.respondUser 400 (missingServeMsg size imageKey)]
  else if ¬ matchSizeRe size then
    [Step.respondUser 400 (badFormatMsg size)]
  else
    let sizes := goSplit size 'x' 
    match atoi (sizes.getD 0 ""), atoi (sizes.getD 1 "") with
    | none, _ => [Step.respondUser 400 "Could not convert width to int."]
    | some _, none => [Step.respondUser 400 "Could not convert height to int."]
    | some reqWidth, some reqHeight =>
      let resizedFileKey := "crop/" ++ size ++ "/" ++ imageKey
      if ¬ wd.createOk then [Step.respondServer]
      else
        Step.download ::
        match wd.download with
        | .err _ => [Step.respondServer]
        | .ok _ =>
          Step.sniff ::
          match wd.sniff with
          | none => [Step.respondServer]
          | some fileType =>
            if ¬ contains validImageFormats fileType then
              [Step.respondUser 400 ("Unsupported file type: " ++ fileType)]
            else
              Step.decode ::
              if ¬ wd.decodeOk then [Step.respondServer]
              else
                let width := goMin env.maxWidth reqWidth
                let height := goMin env.maxHeight reqHeight
                Step.resize width height ::
                if ¬ wd.saveOk then [Step.respondServer]
                else
                  Step.upload env.destinationBucket resizedFileKey ::
                  if ¬ wd.uploadOk then [Step.respondServer]
                  else
                    [Step.respondRedirect ("http://" ++ env.destinationBucket ++
                      ".s3-website-" ++ env.region ++ ".amazonaws.com/" ++
                      resizedFileKey)]

/-- `GetUploadURL` from upload-url.go.  Faithful to the source: neither the
unsupported-extension branch nor the signing-failure branch returns, so the
run continues through key generation, presigning, and the success response
even after an error response has been written.  On a failed map lookup the
Go zero value leaves `extensionType` empty; on a failed presign the signed
URL is empty. -/
def GetUploadURL (directory extension uuid : String)
    (presignResult : Except String String) : List Step :=
  let lookup := extensionMap extension
  let extensionType := lookup.getD ""
  let pre :=
    match lookup with
    | none => [Step.respondUser 400 ("Unsupported extension: " ++ extension)]
    | some _ => []
  let fileKey := generateFileKey extension directory uuid
  let signedURL := match presignResult with | .ok u => u | .error _ => ""
  let signErr :=
    match presignResult with
    | .error _ => [Step.respondServer]
    | .ok _ => []
  pre ++ [Step.genKey fileKey,
          Step.presign fileKey ("image/" ++ extensionType)] ++
    signErr ++ [Step.respondSuccessUpload signedURL fileKey]

/-- `DeleteImage` from delete.go.  Faithful to the source: neither the
missing-key branch nor the delete-failure branch returns, so the object
deletion and the 204 success response still execute after an error response
has been written. -/
def DeleteImage (bucket imageKey : String) (deleteErr : Option String) :
    List Step :=
  (if imageKey = "" then
    [Step.respondUser 400 ("Missing parameters, cannot complete request; image_key: " ++ imageKey)]
   else []) ++
  [Step.deleteObj bucket imageKey] ++
  (match deleteErr with
   | some _ => [Step.respondServer]
   | none => []) ++
  [Step.respondSuccess 204]

/-! ## Concrete fixtures used to witness the theorems on sample runs -/

/-- A sample parsed upload-service environment. -/
def envU : UploadEnv :=
  { uploadBucket := "upload", publicBucket := "public",
    maxBytes := 10000, maxWidth := 1000, maxHeight := 800 }

/-- A sample finalize-upload request. -/
def reqU : RequestPayload :=
  { directory := "dir", fileExtension := "png", fileId := "file1",
    height := 0, width := 0 }

/-- A run in which everything succeeds and the decoded image (800 by 600)
already fits the configured bounds, so no resize happens. -/
def wdFits : UploadWorld :=
  { createOk := true, download := DownloadResult.ok 500,
    sniff := some "image/png", decode := some (800, 600),
    saveOk := true, uploadOk := true, statResult := some 500 }

/-- A run in which everything succeeds and the decoded image (2000 by 1500)
exceeds the configured bounds, so a resize happens. -/
def wdResize : UploadWorld :=
  { createOk := true, download := DownloadResult.ok 500,
    sniff := some "image/png", decode := some (2000, 1500),
    saveOk := true, uploadOk := true, statResult := some 400 }

/-- A sample parsed serve-service environment. -/
def envS : ServeEnv :=
  { sourceBucket := "src", destinationBucket := "dest", region := "us-east-1",
    maxWidth := 1000, maxHeight := 800 }

/-- An all-success serve-path run. -/
def wdServeOk : ServeWorld :=
  { createOk := true, download := DownloadResult.ok 500,
    sniff := some "image/png", decodeOk := true,
    saveOk := true, uploadOk := true }

/-- A serve-path run whose download fails because the source object does not
exist. -/
def wdNoKey : ServeWorld :=
  { createOk := true,
    download := DownloadResult.err "NoSuchKey: The specified key does not exist.",
    sniff := some "image/png", decodeOk := true,
    saveOk := true, uploadOk := true }

/-- A sample queue environment with a 1000-byte limit. -/
def envQ : QueueEnv :=
  { uploadBucket := "upload", publicBucket := "public", callbackQueue := "cbq",
    maxBytes := 1000, maxWidth := 1000, maxHeight := 800 }

/-- A sample queue message. -/
def msgQ : ImageMessage :=
  { fileId := "file1", fileExtension := "png", directory := "dir",
    callbackURL := "http://cb", width := 0, height := 0 }

/-- A queue-item run whose downloaded object is both oversized (5000 bytes
against a 1000-byte limit) and of an unsupported sniffed type (image/gif). -/
def wdGifBig : QueueWorld :=
  { createOk := true, download := DownloadResult.ok 5000,
    sniff := some "image/gif", decode := some (100, 100),
    saveOk := true, uploadOk := true, sendOk := true }

/-- A finalize-upload run whose download is oversized (20000 bytes against
the sample 10000-byte limit) and whose sniffed type is also unsupported. -/
def wdBig : UploadWorld :=
  { createOk := true, download := DownloadResult.ok 20000,
    sniff := some "image/gif", decode := some (1, 1),
    saveOk := true, uploadOk := true, statResult := some 1 }

/-- A finalize-upload run whose download fails because the source object does
not exist. -/
def wdNoKeyU : UploadWorld :=
  { createOk := true,
    download := DownloadResult.err "NoSuchKey: The specified key does not exist.",
    sniff := some "image/png", decode := some (1, 1),
    saveOk := true, uploadOk := true, statResult := some 1 }

/-! ## Inversion and forward-evaluation lemmas about the handler embeddings -/

theorem goMin_eq_min (a b : Int) : goMin a b = min a b := by
  unfold goMin
  rw [min_def]
  split <;> split <;> omega

theorem parseSize_inv (s : String) (a b : Int)
    (h : parseSize s = some (a, b)) :
    matchSizeRe s = true ∧
    atoi ((goSplit s 'x').getD 0 "") = some a ∧
    atoi ((goSplit s 'x').getD 1 "") = some b := by
  unfold parseSize at h
  split at h
  · dsimp only at h
    split at h <;> simp_all
  · simp_all

theorem resizeInv_PostProcessUpload (env : UploadEnv) (req : RequestPayload)
    (wd : UploadWorld) (a b : Int)
    (hmem : Step.resize a b ∈ PostProcessUpload env req wd) :
    (∃ n, wd.download = DownloadResult.ok n ∧ n ≤ env.maxBytes) ∧
    (∃ t, wd.sniff = some t ∧ contains validImageFormats t = true) := by
  unfold PostProcessUpload at hmem
  repeat' split at hmem
  all_goals simp_all

theorem resizeInv_processUploadHandler (env : UploadEnv) (req : RequestPayload)
    (wd : UploadWorld) (a b : Int)
    (hmem : Step.resize a b ∈ processUploadHandler env req wd) :
    (∃ n, wd.download = DownloadResult.ok n ∧ n ≤ env.maxBytes) ∧
    (∃ t, wd.sniff = some t ∧ contains validImageFormats t = true) := by
  unfold processUploadHandler at hmem
  repeat' split at hmem
  all_goals simp_all

theorem resizeInv_uploadImageItem (env : QueueEnv) (msg : ImageMessage)
    (wd : QueueWorld) (a b : Int)
    (hmem : Step.resize a b ∈ uploadImageItem env (some msg) wd) :
    (∃ n, wd.download = DownloadResult.ok n ∧ n ≤ env.maxBytes) ∧
    (∃ t, wd.sniff = some t ∧ contains validImageFormats t = true) := by
  unfold uploadImageItem at hmem
  repeat' split at hmem
  all_goals simp_all

theorem resizeInv_GetResizeCrop (env : ServeEnv) (size imageKey : String)
    (wd : ServeWorld) (a b : Int)
    (hmem : Step.resize a b ∈ GetResizeCrop env size imageKey wd) :
    ∃ t, wd.sniff = some t ∧ contains validImageFormats t = true := by
  unfold GetResizeCrop at hmem
  repeat' split at hmem
  all_goals simp_all
  all_goals (try (split at hmem <;> simp_all))

theorem resizeInv_resizeCropHandler (env : ServeEnv) (size imageKey : String)
    (wd : ServeWorld) (a b : Int)
    (hmem : Step.resize a b ∈ resizeCropHandler env size imageKey wd) :
    ∃ t, wd.sniff = some t ∧ contains validImageFormats t = true := by
  unfold resizeCropHandler at hmem
  repeat' split at hmem
  all_goals simp_all
  all_goals (try (split at hmem <;> simp_all))

theorem uploadKeyInv_PostProcessUpload (env : UploadEnv) (req : RequestPayload)
    (wd : UploadWorld) (bucket key : String)
    (hmem : Step.upload bucket key ∈ PostProcessUpload env req wd) :
    bucket = env.publicBucket ∧
    key = fileKeyFor req.directory req.fileId req.fileExtension := by
  unfold PostProcessUpload at hmem
  repeat' split at hmem
  all_goals simp_all
  all_goals (try (split at hmem <;> simp_all))

theorem uploadKeyInv_processUploadHandler (env : UploadEnv) (req : RequestPayload)
    (wd : UploadWorld) (bucket key : String)
    (hmem : Step.upload bucket key ∈ processUploadHandler env req wd) :
    bucket = env.publicBucket ∧
    key = fileKeyFor req.directory req.fileId req.fileExtension := by
  unfold processUploadHandler at hmem
  repeat' split at hmem
  all_goals simp_all
  all_goals (try (split at hmem <;> simp_all))

theorem uploadKeyInv_uploadImageItem (env : QueueEnv) (msg : ImageMessage)
    (wd : QueueWorld) (bucket key : String)
    (hmem : Step.upload bucket key ∈ uploadImageItem env (some msg) wd) :
    bucket = env.publicBucket ∧
    key = fileKeyFor msg.directory msg.fileId msg.fileExtension := by
  unfold uploadImageItem at hmem
  repeat' split at hmem
  all_goals simp_all
  all_goals (try (split at hmem <;> simp_all))

theorem oversize_PostProcessUpload (env : UploadEnv) (req : RequestPayload)
    (wd : UploadWorld) (n : Int)
    (hid : ¬ req.fileId = "") (hext : ¬ req.fileExtension = "")
    (hcr : wd.createOk = true) (hdl : wd.download = DownloadResult.ok n)
    (hbig : n > env.maxBytes) :
    PostProcessUpload env req wd =
      [Step.download, Step.respondUser 400
        (tooLargeMsg n (fileKeyFor req.directory req.fileId req.fileExtension))] := by
  unfold PostProcessUpload
  simp [hid, hext, hcr, hdl, hbig]

theorem oversize_processUploadHandler (env : UploadEnv) (req : RequestPayload)
    (wd : UploadWorld) (n : Int)
    (hid : ¬ req.fileId = "") (hext : ¬ req.fileExtension = "")
    (hcr : wd.createOk = true) (hdl : wd.download = DownloadResult.ok n)
    (hbig : n > env.maxBytes) :
    processUploadHandler env req wd =
      [Step.download, Step.respondUser 400
        (tooLargeMsg n (fileKeyFor req.directory req.fileId req.fileExtension))] := by
  unfold processUploadHandler
  simp [hid, hext, hcr, hdl, hbig]

theorem badType_uploadImageItem (env : QueueEnv) (msg : ImageMessage)
    (wd : QueueWorld) (n : Int) (t : String)
    (hid : ¬ msg.fileId = "") (hext : ¬ msg.fileExtension = "")
    (hcr : wd.createOk = true) (hdl : wd.download = DownloadResult.ok n)
    (hsn : wd.sniff = some t) (hbad : contains validImageFormats t = false) :
    uploadImageItem env (some msg) wd =
      [Step.download, Step.sniff, Step.logReject
        (unsupportedTypeMsg t (fileKeyFor msg.directory msg.fileId msg.fileExtension))] := by
  unfold uploadImageItem
  simp [hid, hext, hcr, hdl, hsn, hbad]

theorem noSuchKey_PostProcessUpload (env : UploadEnv) (req : RequestPayload)
    (wd : UploadWorld) (e : String)
    (hid : ¬ req.fileId = "") (hext : ¬ req.fileExtension = "")
    (hcr : wd.createOk = true) (hdl : wd.download = DownloadResult.err e)
    (hnk : strStarts e "NoSuchKey" = true) :
    PostProcessUpload env req wd =
      [Step.download, Step.respondUser 404 "Not found."] := by
  unfold PostProcessUpload
  simp [hid, hext, hcr, hdl, hnk]

theorem noSuchKey_processUploadHandler (env : UploadEnv) (req : RequestPayload)
    (wd : UploadWorld) (e : String)
    (hid : ¬ req.fileId = "") (hext : ¬ req.fileExtension = "")
    (hcr : wd.createOk = true) (hdl : wd.download = DownloadResult.err e)
    (hnk : strStarts e "NoSuchKey" = true) :
    processUploadHandler env req wd =
      [Step.download, Step.respondUser 404 "Not found."] := by
  unfold processUploadHandler
  simp [hid, hext, hcr, hdl, hnk]

theorem noSuchKey_GetResizeCrop (env : ServeEnv) (size imageKey : String)
    (wd : ServeWorld) (e : String)
    (hdl : wd.download = DownloadResult.err e)
    (hnk : strStarts e "NoSuchKey" = true)
    (hmem : Step.download ∈ GetResizeCrop env size imageKey wd) :
    Step.respondUser 404 "Not found." ∈ GetResizeCrop env size imageKey wd ∧
    Step.respondServer ∉ GetResizeCrop env size imageKey wd := by
  unfold GetResizeCrop at hmem ⊢
  repeat' split at hmem
  all_goals simp_all
  all_goals (try (split at hmem <;> simp_all))

theorem downloadErr_resizeCropHandler (env : ServeEnv) (size imageKey : String)
    (wd : ServeWorld) (e : String)
    (hdl : wd.download = DownloadResult.err e)
    (hmem : Step.download ∈ resizeCropHandler env size imageKey wd) :
    Step.respondServer ∈ resizeCropHandler env size imageKey wd ∧
    (∀ c m, Step.respondUser c m ∉ resizeCropHandler env size imageKey wd) := by
  unfold resizeCropHandler at hmem ⊢
  repeat' split at hmem
  all_goals simp_all
  all_goals (try (split at hmem <;> simp_all))

/-! ## Claim theorems -/

/-- C7: for every source image whose width and height are both already within
the resolved FIT_WITHIN bounds (scale ratio at least 1), `resizeImageIfTooLarge`
performs no resize and returns the input bytes unchanged - the no-resize
branch never re-encodes. -/
theorem claim_C7_fitWithin_passthrough {α : Type} (w h maxW maxH : Int)
    (bytes : α) (reencoded : Int → Int → α)
    (hw : 0 < w) (hh : 0 < h)
    (hr : 1 ≤ min ((maxW : ℚ) / (w : ℚ)) ((maxH : ℚ) / (h : ℚ))) :
    resizeImageIfTooLarge w h maxW maxH bytes reencoded = (w, h, bytes) := by
  obtain ⟨h1, h2⟩ := le_min_iff.mp hr
  have hw' : (0 : ℚ) < (w : ℚ) := by exact_mod_cast hw
  have hh' : (0 : ℚ) < (h : ℚ) := by exact_mod_cast hh
  have hwle : (w : ℚ) ≤ (maxW : ℚ) := (one_le_div hw').mp h1
  have hhle : (h : ℚ) ≤ (maxH : ℚ) := (one_le_div hh').mp h2
  have hwle' : w ≤ maxW := by exact_mod_cast hwle
  have hhle' : h ≤ maxH := by exact_mod_cast hhle
  unfold resizeImageIfTooLarge
  rw [if_neg (by omega)]

/-- Witness for C7: a 2 by 3 image inside 4 by 5 bounds passes through. -/
theorem claim_C7_fitWithin_passthrough_witness :
    0 < (2 : Int) ∧ 0 < (3 : Int) ∧
    (1 : ℚ) ≤ min (((4 : Int) : ℚ) / ((2 : Int) : ℚ))
      (((5 : Int) : ℚ) / ((3 : Int) : ℚ)) ∧
    resizeImageIfTooLarge 2 3 4 5 (37 : Int) (fun _ _ => 0) = (2, 3, 37) :=
  ⟨by decide, by decide, by rw [le_min_iff]; constructor <;> norm_num,
   claim_C7_fitWithin_passthrough 2 3 4 5 37 (fun _ _ => 0) (by decide)
     (by decide) (by rw [le_min_iff]; constructor <;> norm_num)⟩

/-- C9: for every upload-finalization run with non-empty fileId and extension,
the key used by the upload step equals `<directory>/<fileId>.<extension>`
when a directory is supplied and `<fileId>.<extension>` otherwise, with the
caller-declared extension verbatim (quantified over every world, so in
particular independent of the sniffed type); `generateFileKey` uses the same
rule for upload keys. -/
theorem claim_C9_destinationKey :
    (∀ (env : UploadEnv) (req : RequestPayload) (wd : UploadWorld)
       (bucket key : String),
      req.fileId ≠ "" → req.fileExtension ≠ "" →
      Step.upload bucket key ∈ PostProcessUpload env req wd →
      key = (if req.directory ≠ "" then
               req.directory ++ "/" ++ req.fileId ++ "." ++ req.fileExtension
             else req.fileId ++ "." ++ req.fileExtension)) ∧
    (∀ (env : UploadEnv) (req : RequestPayload) (wd : UploadWorld)
       (bucket key : String),
      req.fileId ≠ "" → req.fileExtension ≠ "" →
      Step.upload bucket key ∈ processUploadHandler env req wd →
      key = (if req.directory ≠ "" then
               req.directory ++ "/" ++ req.fileId ++ "." ++ req.fileExtension
             else req.fileId ++ "." ++ req.fileExtension)) ∧
    (∀ (env : QueueEnv) (msg : ImageMessage) (wd : QueueWorld)
       (bucket key : String),
      msg.fileId ≠ "" → msg.fileExtension ≠ "" →
      Step.upload bucket key ∈ uploadImageItem env (some msg) wd →
      key = (if msg.directory ≠ "" then
               msg.directory ++ "/" ++ msg.fileId ++ "." ++ msg.fileExtension
             else msg.fileId ++ "." ++ msg.fileExtension)) ∧
    (∀ extension directory uuid : String,
      generateFileKey extension directory uuid = fileKeyFor directory uuid extension) := by
  refine ⟨?_, ?_, ?_, ?_⟩
  · intro env req wd bucket key _ _ hmem
    have hk := (uploadKeyInv_PostProcessUpload env req wd bucket key hmem).2
    simpa [fileKeyFor] using hk
  · intro env req wd bucket key _ _ hmem
    have hk := (uploadKeyInv_processUploadHandler env req wd bucket key hmem).2
    simpa [fileKeyFor] using hk
  · intro env msg wd bucket key _ _ hmem
    have hk := (uploadKeyInv_uploadImageItem env msg wd bucket key hmem).2
    simpa [fileKeyFor] using hk
  · intro extension directory uuid
    unfold generateFileKey fileKeyFor
    by_cases hd : directory = "" <;> simp [hd]

/-- Witness for C9: the sample all-success finalize run uploads under
`dir/file1.png`. -/
theorem claim_C9_destinationKey_witness :
    reqU.fileId ≠ "" ∧ reqU.fileExtension ≠ "" ∧
    "dir/file1.png" =
      (if reqU.directory ≠ "" then
         reqU.directory ++ "/" ++ reqU.fileId ++ "." ++ reqU.fileExtension
       else reqU.fileId ++ "." ++ reqU.fileExtension) :=
  ⟨by decide, by decide,
   claim_C9_destinationKey.1 envU reqU wdFits "public" "dir/file1.png"
     (by decide) (by decide) (by decide)⟩

/-- C10: a GetUploadURL run with extension `jpg` produces a file key ending
in `.jpg` (the caller extension verbatim) while presigning for content type
`image/jpeg` (the extension normalized through the extension map), and the
two subtypes differ. -/
theorem claim_C10_jpgKeyVsSignedType :
    ∀ (directory uuid : String) (presignResult : Except String String),
      generateFileKey "jpg" directory uuid =
        (if directory = "" then uuid else directory ++ "/" ++ uuid) ++ "." ++ "jpg" ∧
      Step.presign (generateFileKey "jpg" directory uuid) "image/jpeg" ∈
        GetUploadURL directory "jpg" uuid presignResult ∧
      ("jpg" : String) ≠ "jpeg" := by
  intro d u pr
  have hmap : extensionMap "jpg" = some "jpeg" := by decide
  have hct : ("image/" ++ "jpeg" : String) = "image/jpeg" := by decide
  refine ⟨?_, ?_, by decide⟩
  · unfold generateFileKey
    by_cases hd : d = "" <;> simp [hd]
  · cases pr <;> simp [GetUploadURL, hmap, hct]

/-- C5: in every handler, a resize step is attempted only on an asset whose
sniffed mime type passed the allow-list check, and - in the upload-service
handlers, the ones configured with a byte maximum - only when the downloaded
byte count does not exceed it.  (The serve service configures no byte
maximum; its handlers validate the sniffed type before resizing.) -/
theorem claim_C5_resizeOnlyValidated :
    (∀ (env : UploadEnv) (req : RequestPayload) (wd : UploadWorld) (a b : Int),
      Step.resize a b ∈ PostProcessUpload env req wd →
      (∃ n, wd.download = DownloadResult.ok n ∧ n ≤ env.maxBytes) ∧
      (∃ t, wd.sniff = some t ∧ contains validImageFormats t = true)) ∧
    (∀ (env : UploadEnv) (req : RequestPayload) (wd : UploadWorld) (a b : Int),
      Step.resize a b ∈ processUploadHandler env req wd →
      (∃ n, wd.download = DownloadResult.ok n ∧ n ≤ env.maxBytes) ∧
      (∃ t, wd.sniff = some t ∧ contains validImageFormats t = true)) ∧
    (∀ (env : QueueEnv) (msg : ImageMessage) (wd : QueueWorld) (a b : Int),
      Step.resize a b ∈ uploadImageItem env (some msg) wd →
      (∃ n, wd.download = DownloadResult.ok n ∧ n ≤ env.maxBytes) ∧
      (∃ t, wd.sniff = some t ∧ contains validImageFormats t = true)) ∧
    (∀ (env : ServeEnv) (size imageKey : String) (wd : ServeWorld) (a b : Int),
      Step.resize a b ∈ GetResizeCrop env size imageKey wd →
      ∃ t, wd.sniff = some t ∧ contains validImageFormats t = true) ∧
    (∀ (env : ServeEnv) (size imageKey : String) (wd : ServeWorld) (a b : Int),
      Step.resize a b ∈ resizeCropHandler env size imageKey wd →
      ∃ t, wd.sniff = some t ∧ contains validImageFormats t = true) :=
  ⟨resizeInv_PostProcessUpload, resizeInv_processUploadHandler,
   resizeInv_uploadImageItem, resizeInv_GetResizeCrop,
   resizeInv_resizeCropHandler⟩

/-- Witness for C5: the sample resize-triggering finalize run and the sample
serve run both resize only after validation. -/
theorem claim_C5_resizeOnlyValidated_witness :
    ((∃ n, wdResize.download = DownloadResult.ok n ∧ n ≤ envU.maxBytes) ∧
     (∃ t, wdResize.sniff = some t ∧ contains validImageFormats t = true)) ∧
    (∃ t, wdServeOk.sniff = some t ∧ contains validImageFormats t = true) :=
  ⟨claim_C5_resizeOnlyValidated.1 envU reqU wdResize 1000 750 (by decide),
   claim_C5_resizeOnlyValidated.2.2.2.1 envS "400x300" "img.png" wdServeOk
     400 300 (by decide)⟩

/-- C6: for requested widths and heights strictly greater than 0, EXACT_CROP
resolution produces exactly `min(requested, configured max)` in each
dimension, and those are the dimensions passed to the crop-resize step. -/
theorem claim_C6_exactCropResolution :
    ∀ (env : ServeEnv) (size imageKey : String) (wd : ServeWorld)
      (reqW reqH : Int),
      parseSize size = some (reqW, reqH) → 0 < reqW → 0 < reqH →
      ∀ a b : Int, Step.resize a b ∈ GetResizeCrop env size imageKey wd →
        a = min reqW env.maxWidth ∧ b = min reqH env.maxHeight := by
  intro env size imageKey wd reqW reqH hp hw hh a b hmem
  obtain ⟨hm, h0, h1⟩ := parseSize_inv size reqW reqH hp
  unfold GetResizeCrop at hmem
  repeat' split at hmem
  all_goals simp_all [goMin_eq_min, min_comm]

/-- Witness for C6: the sample serve run with token 400x300 against maxima
1000 by 800 crops to 400 by 300. -/
theorem claim_C6_exactCropResolution_witness :
    parseSize "400x300" = some (400, 300) ∧ 0 < (400 : Int) ∧ 0 < (300 : Int) ∧
    ((400 : Int) = min 400 envS.maxWidth ∧ (300 : Int) = min 300 envS.maxHeight) :=
  ⟨by decide, by decide, by decide,
   claim_C6_exactCropResolution envS "400x300" "img.png" wdServeOk 400 300
     (by decide) (by decide) (by decide) 400 300 (by decide)⟩

/-- C8: the size token 400x300 parses to width 400 and height 300, the
sample malformed tokens fail the pattern, and in both serve handlers any
token failing the pattern produces a single 400 user-error response with no
download step ever performed. -/
theorem claim_C8_sizeTokenGate :
    parseSize "400x300" = some (400, 300) ∧
    matchSizeRe "abcx300" = false ∧
    matchSizeRe "400" = false ∧
    matchSizeRe "400x" = false ∧
    (∀ (env : ServeEnv) (size imageKey : String) (wd : ServeWorld),
      matchSizeRe size = false →
      (∃ m, GetResizeCrop env size imageKey wd = [Step.respondUser 400 m]) ∧
      Step.download ∉ GetResizeCrop env size imageKey wd) ∧
    (∀ (env : ServeEnv) (size imageKey : String) (wd : ServeWorld),
      matchSizeRe size = false →
      (∃ m, resizeCropHandler env size imageKey wd = [Step.respondUser 400 m]) ∧
      Step.download ∉ resizeCropHandler env size imageKey wd) := by
  refine ⟨by decide, by decide, by decide, by decide, ?_, ?_⟩
  · intro env size imageKey wd hm
    unfold GetResizeCrop
    by_cases h1 : size = "" ∨ imageKey = ""
    · rw [if_pos h1]
      exact ⟨⟨_, rfl⟩, by simp⟩
    · rw [if_neg h1, if_pos (by simp [hm])]
      exact ⟨⟨_, rfl⟩, by simp⟩
  · intro env size imageKey wd hm
    unfold resizeCropHandler
    by_cases h1 : size = "" ∨ imageKey = ""
    · rw [if_pos h1]
      exact ⟨⟨_, rfl⟩, by simp⟩
    · rw [if_neg h1, if_pos (by simp [hm])]
      exact ⟨⟨_, rfl⟩, by simp⟩

/-- Witness for C8: the malformed token abcx300 is rejected as a single 400
user error without any download. -/
theorem claim_C8_sizeTokenGate_witness :
    (∃ m, GetResizeCrop envS "abcx300" "img.png" wdServeOk =
      [Step.respondUser 400 m]) ∧
    Step.download ∉ GetResizeCrop envS "abcx300" "img.png" wdServeOk :=
  claim_C8_sizeTokenGate.2.2.2.2.1 envS "abcx300" "img.png" wdServeOk (by decide)

/-- C1 (the code bug the spec's design notes flag): in a successful
finalize-upload run whose computed final dimensions are 800 wide by 600 high
(decoded 800 by 600, no resize needed), both variants emit a payload whose
height field (the sixth `respondSuccessPayload` argument) carries the
computed width 800 and whose width field (the last argument) carries the
computed height 600 - the two fields are swapped. -/
theorem claim_C1_payloadSwapsDimensions :
    wdFits.decode = some (800, 600) ∧
    PostProcessUpload envU reqU wdFits =
      [Step.download, Step.sniff, Step.decode,
       Step.upload "public" "dir/file1.png",
       Step.respondSuccessPayload 201 "public" "dir" "png" "file1" 800 500 600] ∧
    processUploadHandler envU reqU wdFits =
      [Step.download, Step.sniff, Step.decode,
       Step.upload "public" "dir/file1.png",
       Step.respondSuccessPayload 200 "public" "dir" "png" "file1" 800 500 600] ∧
    (800 : Int) ≠ 600 := by decide

/-- C4 (code bug): `GetUploadURL` with the unsupported extension `gif` writes
the 400 user-error response and then still generates a key, presigns it, and
writes a success response; `DeleteImage` with an empty image key writes the
400 user-error response and then still deletes the (empty-keyed) object and
writes the 204 success response.  Neither error branch aborts the run. -/
theorem claim_C4_stepsAfterError :
    GetUploadURL "dir" "gif" "uuid-1" (Except.ok "https://signed.example") =
      [Step.respondUser 400 "Unsupported extension: gif",
       Step.genKey "dir/uuid-1.gif",
       Step.presign "dir/uuid-1.gif" "image/",
       Step.respondSuccessUpload "https://signed.example" "dir/uuid-1.gif"] ∧
    DeleteImage "public" "" none =
      [Step.respondUser 400 "Missing parameters, cannot complete request; image_key: ",
       Step.deleteObj "public" "",
       Step.respondSuccess 204] := by decide

/-- C2 counterexample: a queue item whose download is both oversized (5000
bytes against a 1000-byte limit) and of unsupported sniffed type (image/gif)
is rejected with the unsupported-type message, not the byte-size message:
the queue handler sniffs the type before checking the byte size. -/
theorem claim_C2_counterexample_queueOrder :
    wdGifBig.download = DownloadResult.ok 5000 ∧ (5000 : Int) > envQ.maxBytes ∧
    wdGifBig.sniff = some "image/gif" ∧
    contains validImageFormats "image/gif" = false ∧
    uploadImageItem envQ (some msgQ) wdGifBig =
      [Step.download, Step.sniff,
       Step.logReject (unsupportedTypeMsg "image/gif" "dir/file1.png")] ∧
    Step.logReject (tooLargeMsg 5000 "dir/file1.png") ∉
      uploadImageItem envQ (some msgQ) wdGifBig := by decide

/-- C2 amended: in the two request-driven finalize handlers an oversized
download is rejected with the byte-size user error naming the byte count and
key, before any type sniff; in the queue-driven handler the type sniff and
its check come first, so an oversized run with an unsupported sniffed type
is rejected for the type, not the size. -/
theorem claim_C2_amended_sizeTypeOrder :
    (∀ (env : UploadEnv) (req : RequestPayload) (wd : UploadWorld) (n : Int),
      ¬ req.fileId = "" → ¬ req.fileExtension = "" → wd.createOk = true →
      wd.download = DownloadResult.ok n → n > env.maxBytes →
      PostProcessUpload env req wd =
        [Step.download, Step.respondUser 400
          (tooLargeMsg n (fileKeyFor req.directory req.fileId req.fileExtension))] ∧
      Step.sniff ∉ PostProcessUpload env req wd) ∧
    (∀ (env : UploadEnv) (req : RequestPayload) (wd : UploadWorld) (n : Int),
      ¬ req.fileId = "" → ¬ req.fileExtension = "" → wd.createOk = true →
      wd.download = DownloadResult.ok n → n > env.maxBytes →
      processUploadHandler env req wd =
        [Step.download, Step.respondUser 400
          (tooLargeMsg n (fileKeyFor req.directory req.fileId req.fileExtension))] ∧
      Step.sniff ∉ processUploadHandler env req wd) ∧
    (∀ (env : QueueEnv) (msg : ImageMessage) (wd : QueueWorld) (n : Int) (t : String),
      ¬ msg.fileId = "" → ¬ msg.fileExtension = "" → wd.createOk = true →
      wd.download = DownloadResult.ok n → wd.sniff = some t →
      contains validImageFormats t = false →
      uploadImageItem env (some msg) wd =
        [Step.download, Step.sniff, Step.logReject
          (unsupportedTypeMsg t (fileKeyFor msg.directory msg.fileId msg.fileExtension))]) := by
  refine ⟨?_, ?_, ?_⟩
  · intro env req wd n hid hext hcr hdl hbig
    have he := oversize_PostProcessUpload env req wd n hid hext hcr hdl hbig
    refine ⟨he, ?_⟩
    rw [he]
    simp
  · intro env req wd n hid hext hcr hdl hbig
    have he := oversize_processUploadHandler env req wd n hid hext hcr hdl hbig
    refine ⟨he, ?_⟩
    rw [he]
    simp
  · intro env msg wd n t hid hext hcr hdl hsn hbad
    exact badType_uploadImageItem env msg wd n t hid hext hcr hdl hsn hbad

/-- Witness for the amended C2: the sample oversized finalize run is
rejected with the byte-size error before sniffing, and the sample oversized
bad-type queue item is rejected for its type. -/
theorem claim_C2_amended_sizeTypeOrder_witness :
    (PostProcessUpload envU reqU wdBig =
      [Step.download, Step.respondUser 400 (tooLargeMsg 20000
        (fileKeyFor reqU.directory reqU.fileId reqU.fileExtension))] ∧
     Step.sniff ∉ PostProcessUpload envU reqU wdBig) ∧
    uploadImageItem envQ (some msgQ) wdGifBig =
      [Step.download, Step.sniff, Step.logReject (unsupportedTypeMsg "image/gif"
        (fileKeyFor msgQ.directory msgQ.fileId msgQ.fileExtension))] :=
  ⟨claim_C2_amended_sizeTypeOrder.1 envU reqU wdBig 20000 (by decide) (by decide)
     (by decide) (by decide) (by decide),
   claim_C2_amended_sizeTypeOrder.2.2 envQ msgQ wdGifBig 5000 "image/gif"
     (by decide) (by decide) (by decide) (by decide) (by decide) (by decide)⟩

/-- C3 counterexample: the standalone API-Gateway crop handler answers a
generic server error - never the 404 not-found - when the download fails
with a NoSuchKey (object absent) error. -/
theorem claim_C3_counterexample_serverError :
    strStarts "NoSuchKey: The specified key does not exist." "NoSuchKey" = true ∧
    resizeCropHandler envS "400x300" "img.png" wdNoKey =
      [Step.download, Step.respondServer] ∧
    Step.respondUser 404 "Not found." ∉
      resizeCropHandler envS "400x300" "img.png" wdNoKey := by decide

/-- C3 amended: the chi-routed handlers (both finalize-upload variants and
GetResizeCrop) classify a download failure whose error starts with NoSuchKey
as a 404 not-found and never as a server error, while the standalone
API-Gateway crop handler classifies every download failure - absence
included - as a generic server error with no user-facing 4xx. -/
theorem claim_C3_amended_notFoundClassification :
    (∀ (env : UploadEnv) (req : RequestPayload) (wd : UploadWorld) (e : String),
      ¬ req.fileId = "" → ¬ req.fileExtension = "" → wd.createOk = true →
      wd.download = DownloadResult.err e → strStarts e "NoSuchKey" = true →
      PostProcessUpload env req wd =
        [Step.download, Step.respondUser 404 "Not found."]) ∧
    (∀ (env : UploadEnv) (req : RequestPayload) (wd : UploadWorld) (e : String),
      ¬ req.fileId = "" → ¬ req.fileExtension = "" → wd.createOk = true →
      wd.download = DownloadResult.err e → strStarts e "NoSuchKey" = true →
      processUploadHandler env req wd =
        [Step.download, Step.respondUser 404 "Not found."]) ∧
    (∀ (env : ServeEnv) (size imageKey : String) (wd : ServeWorld) (e : String),
      wd.download = DownloadResult.err e → strStarts e "NoSuchKey" = true →
      Step.download ∈ GetResizeCrop env size imageKey wd →
      Step.respondUser 404 "Not found." ∈ GetResizeCrop env size imageKey wd ∧
      Step.respondServer ∉ GetResizeCrop env size imageKey wd) ∧
    (∀ (env : ServeEnv) (size imageKey : String) (wd : ServeWorld) (e : String),
      wd.download = DownloadResult.err e →
      Step.download ∈ resizeCropHandler env size imageKey wd →
      Step.respondServer ∈ resizeCropHandler env size imageKey wd ∧
      (∀ c m, Step.respondUser c m ∉ resizeCropHandler env size imageKey wd)) :=
  ⟨noSuchKey_PostProcessUpload, noSuchKey_processUploadHandler,
   noSuchKey_GetResizeCrop, downloadErr_resizeCropHandler⟩

/-- Witness for the amended C3: the sample absent-object runs behave as
classified. -/
theorem claim_C3_amended_notFoundClassification_witness :
    PostProcessUpload envU reqU wdNoKeyU =
      [Step.download, Step.respondUser 404 "Not found."] ∧
    (Step.respondUser 404 "Not found." ∈ GetResizeCrop envS "400x300" "img.png" wdNoKey ∧
     Step.respondServer ∉ GetResizeCrop envS "400x300" "img.png" wdNoKey) ∧
    (Step.respondServer ∈ resizeCropHandler envS "400x300" "img.png" wdNoKey ∧
     (∀ c m, Step.respondUser c m ∉ resizeCropHandler envS "400x300" "img.png" wdNoKey)) :=
  ⟨claim_C3_amended_notFoundClassification.1 envU reqU wdNoKeyU
     "NoSuchKey: The specified key does not exist."
     (by decide) (by decide) (by decide) (by decide) (by decide),
   claim_C3_amended_notFoundClassification.2.2.1 envS "400x300" "img.png" wdNoKey
     "NoSuchKey: The specified key does not exist."
     (by decide) (by decide) (by decide),
   claim_C3_amended_notFoundClassification.2.2.2 envS "400x300" "img.png" wdNoKey
     "NoSuchKey: The specified key does not exist."
     (by decide) (by decide)⟩

/-- Witness for C10: a concrete GetUploadURL run with extension jpg. -/
theorem claim_C10_jpgKeyVsSignedType_witness :
    generateFileKey "jpg" "dir" "uuid-1" =
      (if ("dir" : String) = "" then "uuid-1" else "dir" ++ "/" ++ "uuid-1") ++ "." ++ "jpg" ∧
    Step.presign (generateFileKey "jpg" "dir" "uuid-1") "image/jpeg" ∈
      GetUploadURL "dir" "jpg" "uuid-1" (Except.ok "https://signed.example") ∧
    ("jpg" : String) ≠ "jpeg" :=
  claim_C10_jpgKeyVsSignedType "dir" "uuid-1" (Except.ok "https://signed.example")

end StorageMicroservices
